import Mathlib

/-!
Shallow embedding of the project-attribution and privacy-filtering subsystem
of the cursor-chat-browser repository (`src/utils/db-manager.ts`, provided as
`src/unnamed/part_000`): the attribution cascade inside
`createFilteredDatabase`, the family delete passes, and the shadow store
manager `getShadowDbPath`.

Stores are association lists of string keys to parsed JSON values; the JS
string operations used on keys (`split(':')`, `startsWith` via SQL `LIKE
'fam:%'`, `includes`) are re-implemented character by character, and the fault
points of the SQLite layer (copy, bulk delete, the two delete transactions)
are made explicit so the try/catch structure of the source can be stated.
-/

namespace CursorFilter

/-- JS `p` is a prefix of `l`, on character lists (used for both
`key LIKE 'family:%'` row selection and `String.startsWith`). -/
def isPrefixChars : List Char → List Char → Bool
  | [], _ => true
  | _ :: _, [] => false
  | a :: p, b :: l => a == b && isPrefixChars p l

/-- JS `hay.includes(needle)` on character lists: some suffix of `hay`
starts with `needle`. -/
def containsSubChars : List Char → List Char → Bool
  | needle, [] => isPrefixChars needle []
  | needle, c :: t => isPrefixChars needle (c :: t) || containsSubChars needle t

/-- JS `s.startsWith(p)` / SQL `s LIKE 'p%'`. -/
def strStartsWith (s p : String) : Bool :=
  isPrefixChars p.toList s.toList

/-- JS `s.includes(sub)`: case-sensitive substring containment. -/
def strIncludes (s sub : String) : Bool :=
  containsSubChars sub.toList s.toList

/-- JS `s.split(':')` on character lists: always returns at least one
(possibly empty) segment, splitting at every colon. -/
def splitColonChars : List Char → List (List Char)
  | [] => [[]]
  | c :: t =>
    if c = ':' then [] :: splitColonChars t
    else
      match splitColonChars t with
      | [] => [[c]]
      | h :: r => (c :: h) :: r

/-- JS `key.split(':')` on strings. -/
def splitKey (s : String) : List String :=
  (splitColonChars s.toList).map (fun l => String.mk l)

/-- `key.split(':')[i]` when the segment exists. -/
def keyPart (k : String) (i : Nat) : Option String :=
  (splitKey k).get? i

/-- `key.split(':')[i]` with the JS out-of-bounds result `undefined`, which
coerces to the property name "undefined" when used as an object key. -/
def keyPartJS (k : String) (i : Nat) : String :=
  (keyPart k i).getD "undefined"

/-- JS `array.includes(x)` / `set.has(x)` on string lists: exact,
case-sensitive whole-string equality. -/
def memB (x : String) : List String → Bool
  | [] => false
  | y :: t => x == y || memB x t

/-- Strip the regex match `^\/Users\/[^\/]+\/`: a leading `/Users/`, then a
non-empty run of non-slash characters, then a slash. -/
def dropUsersSeg (l : List Char) : List Char :=
  if isPrefixChars ('/' :: 'U' :: 's' :: 'e' :: 'r' :: 's' :: '/' :: []) l then
    let rest := l.drop 7
    let seg := rest.takeWhile (fun c => c ≠ '/')
    match rest.drop seg.length with
    | '/' :: tail => if seg = [] then l else tail
    | _ => l
  else l

/-- Rewrite the regex match `^\/mnt\/c\//` to the drive prefix `C:\`. -/
def rewriteMnt (l : List Char) : List Char :=
  if isPrefixChars ('/' :: 'm' :: 'n' :: 't' :: '/' :: 'c' :: '/' :: []) l then
    'C' :: ':' :: '\\' :: l.drop 7
  else l

/-- `filePath.replace(/^\/Users\/[^\/]+\//, '').replace(/^\/mnt\/c\//,
'C:\\').replace(/\//g, '\\')` — the path normalization applied before every
substring test of the file-path fallback steps. -/
def normalizePath (s : String) : String :=
  String.mk (((dropUsersSeg s.toList) |> rewriteMnt).map
    (fun c => if c = '/' then '\\' else c))

/-- One entry of a `fullConversationHeadersOnly` array: either not an object
(skipped), or an object with an optional `bubbleId` field. -/
inductive HeaderE where
  | notObj : HeaderE
  | obj : Option String → HeaderE
deriving DecidableEq, Repr

/-- The parse result of one stored JSON value, restricted to the fields the
attribution engine reads. `isObj = false` models a value that is JSON `null`,
not an object, or unparseable (every reader skips it); each facet is `none`
when the field is absent or fails its type check in the source.
`Option String` entries model array elements that may fail the source's
object/string checks (`none` = skipped element). -/
structure Value where
  isObj : Bool
  projectLayouts : Option (List (Option String)) := none
  newlyCreatedFiles : Option (List (Option String)) := none
  codeBlockData : Option (List String) := none
  fullConversationHeadersOnly : Option (List HeaderE) := none
  relevantFiles : Option (List (Option String)) := none
  attachedFileCodeChunksUris : Option (List (Option String)) := none
  contextFileSelections : Option (List (Option String)) := none
deriving DecidableEq, Repr

/-- One row of the `cursorDiskKV` table. -/
structure Record where
  key : String
  value : Value
deriving DecidableEq, Repr

abbrev Store := List Record

/-- `SELECT ... WHERE key LIKE 'fam%'` in row order. -/
def familyRows (fam : String) (st : Store) : List Record :=
  st.filter (fun r => strStartsWith r.key fam)

/-- JS truthiness filter applied to optional string array elements: skipped
when absent (failed object/string checks) or the empty string (falsy). -/
def truthyStrs (l : List (Option String)) : List String :=
  l.filterMap (fun o =>
    match o with
    | some p => if p = "" then none else some p
    | none => none)

/-- The `rootPath` strings one `messageRequestContext:` row contributes to
`projectLayoutsMap`: requires a parsed object with a `projectLayouts` array;
each entry must be a string that itself parses to an object with a truthy
`rootPath`. -/
def rowLayoutRoots (r : Record) : List String :=
  if r.value.isObj then
    match r.value.projectLayouts with
    | some entries => truthyStrs entries
    | none => []
  else []

/-- `projectLayoutsMap[cid] || []`: root paths accumulated, in row order,
from every `messageRequestContext:` row whose key has at least two segments
and whose second segment is `cid`. -/
def layoutsFor (st : Store) (cid : String) : List String :=
  ((familyRows "messageRequestContext:" st).filter
      (fun r => keyPart r.key 1 = some cid)).flatMap rowLayoutRoots

/-- The property name under which a `bubbleId:` row is stored in `bubbleMap`:
`row.key.split(':')[2]`, with JS `undefined` coercing to "undefined". -/
def bubbleKeyOf (k : String) : String := keyPartJS k 2

/-- `bubbleMap[bid]`: last-write-wins object map built from all `bubbleId:`
rows whose value parses to an object. -/
def bubbleLookup (st : Store) (bid : String) : Option Value :=
  (((familyRows "bubbleId:" st).filter
      (fun r => r.value.isObj && bubbleKeyOf r.key == bid)).getLast?).map
    (fun r => r.value)

/-- Inner loop of every file-path fallback step: the first allowed project
name (in allow-list order) contained in the normalized path. -/
def matchPath (allowed : List String) (p : String) : Option String :=
  allowed.find? (fun proj => strIncludes (normalizePath p) proj)

/-- Per-bubble fallback checks, in source order: `relevantFiles`, then
`attachedFileCodeChunksUris[].path`, then `context.fileSelections[].uri.path`. -/
def bubbleProject (allowed : List String) (b : Value) : Option String :=
  match (truthyStrs (b.relevantFiles.getD [])).findSome? (matchPath allowed) with
  | some p => some p
  | none =>
    match (truthyStrs (b.attachedFileCodeChunksUris.getD [])).findSome?
        (matchPath allowed) with
    | some p => some p
    | none =>
      (truthyStrs (b.contextFileSelections.getD [])).findSome? (matchPath allowed)

/-- Step 4 per-header check: non-object headers are skipped; the header's
`bubbleId` (JS `undefined` coerced) is looked up in the bubble map. -/
def headerProject (allowed : List String) (st : Store) (h : HeaderE) : Option String :=
  match h with
  | .notObj => none
  | .obj bid =>
    match bubbleLookup st (bid.getD "undefined") with
    | some b => bubbleProject allowed b
    | none => none

/-- Steps 2–4 of the cascade (the file-path fallbacks): `newlyCreatedFiles`
uri paths, then `codeBlockData` keys, then the bubbles reachable from
`fullConversationHeadersOnly`, in order, first match wins. -/
def fallbackProject (allowed : List String) (st : Store) (v : Value) : Option String :=
  match (truthyStrs (v.newlyCreatedFiles.getD [])).findSome? (matchPath allowed) with
  | some p => some p
  | none =>
    match (v.codeBlockData.getD []).findSome? (matchPath allowed) with
    | some p => some p
    | none =>
      (v.fullConversationHeadersOnly.getD []).findSome? (headerProject allowed st)

/-- Step 1 of the cascade: the first `projectLayouts` root path that is a
member of the allow-list (`allowedProjects.includes(projectName)`). -/
def step1Project (allowed layouts : List String) : Option String :=
  layouts.find? (fun r => memB r allowed)

/-- The full attribution cascade for one conversation, as run by
`createFilteredDatabase`: `projectLayouts` membership first; only when it
yields nothing are the file-path fallbacks consulted. -/
def determineProjectId (allowed : List String) (st : Store) (cid : String)
    (v : Value) : Option String :=
  match step1Project allowed (layoutsFor st cid) with
  | some p => some p
  | none => fallbackProject allowed st v

/-- `row.key.split(':')[1]` for a `composerData:` row. -/
def composerIdOf (k : String) : String := keyPartJS k 1

/-- The allowed-conversation set: ids of `composerData:` rows whose value
parses to an object and whose cascade attribution succeeds. -/
def computeAllowedComposerIds (st : Store) (allowed : List String) : List String :=
  (familyRows "composerData:" st).filterMap (fun r =>
    if r.value.isObj then
      match determineProjectId allowed st (composerIdOf r.key) r.value with
      | some _ => some (composerIdOf r.key)
      | none => none
    else none)

/-- `DELETE FROM cursorDiskKV WHERE key LIKE 'composerData:%' AND key NOT IN
('composerData:id1', ...)`: drop every `composerData:` row whose full key is
not one of the keys rebuilt from the allowed-conversation set. -/
def deleteComposerPass (ids : List String) (st : Store) : Store :=
  st.filter (fun r =>
    !(strStartsWith r.key "composerData:" &&
      !(memB r.key (ids.map (fun i => "composerData:" ++ i)))))

/-- Per-row delete condition shared by the `bubbleId:` and
`messageRequestContext:` transactions: at least two key segments, and the
second segment (the conversation id) is not in the allowed set. -/
def secondSegExcluded (ids : List String) (k : String) : Bool :=
  match keyPart k 1 with
  | some cid => !(memB cid ids)
  | none => false

/-- The `bubbleId:` delete transaction: every `bubbleId:` row whose embedded
conversation id is excluded is deleted, whether or not a matching
`composerData:` row exists. -/
def deleteBubblePass (ids : List String) (st : Store) : Store :=
  st.filter (fun r =>
    !(strStartsWith r.key "bubbleId:" && secondSegExcluded ids r.key))

/-- The `messageRequestContext:` delete transaction, same shape as the
`bubbleId:` one. -/
def deleteContextPass (ids : List String) (st : Store) : Store :=
  st.filter (fun r =>
    !(strStartsWith r.key "messageRequestContext:" && secondSegExcluded ids r.key))

/-- A key in one of the three conversation-bearing families targeted by the
empty-match bulk delete. -/
def conversationFamilies (k : String) : Bool :=
  strStartsWith k "composerData:" || strStartsWith k "bubbleId:" ||
    strStartsWith k "messageRequestContext:"

/-- `DELETE ... WHERE key LIKE 'composerData:%' OR key LIKE 'bubbleId:%' OR
key LIKE 'messageRequestContext:%'`. -/
def deleteAllPass (st : Store) : Store :=
  st.filter (fun r => !(conversationFamilies r.key))

/-- Explicit fault points of the SQLite layer inside
`createFilteredDatabase`: the initial file copy, the `composerData` bulk
delete statement (the only one wrapped in its own try/catch), and the two
delete transactions (not individually guarded in the source). -/
structure Faults where
  copyFails : Bool := false
  composerDeleteFails : Bool := false
  bubbleTxFails : Bool := false
  contextTxFails : Bool := false
deriving DecidableEq, Repr

/-- Observable outcome of one `createFilteredDatabase` run: the store left at
the destination path, the returned boolean, the number of WARN-level
delete-failure log lines, and whether the `VACUUM` compaction step ran. -/
structure FilterResult where
  store : Store
  ok : Bool
  warns : Nat
  vacuumed : Bool
deriving DecidableEq, Repr

/-- `createFilteredDatabase(shadowDbPath, filteredDbPath, allowedProjects)`:
copy the shadow store to the destination (`dest0` is whatever was at the
destination before, kept on copy failure), run the attribution pass and the
family deletes when the allow-list is non-empty, `VACUUM`, and return
success. An uncaught exception (copy, or either delete transaction) reaches
the top-level catch and reports `false` with the partially-modified store
left in place; a `composerData` bulk-delete failure is caught locally, logged
as a warning, and skipped. -/
def createFilteredDatabase (f : Faults) (dest0 shadow : Store)
    (allowedProjects : List String) : FilterResult :=
  if f.copyFails then ⟨dest0, false, 0, false⟩
  else
    match allowedProjects with
    | [] => ⟨shadow, true, 0, true⟩
    | _ :: _ =>
      let ids := computeAllowedComposerIds shadow allowedProjects
      match ids with
      | [] => ⟨deleteAllPass shadow, true, 0, true⟩
      | _ :: _ =>
        let afterComposer :=
          if f.composerDeleteFails then (shadow, 1)
          else (deleteComposerPass ids shadow, 0)
        if f.bubbleTxFails then ⟨afterComposer.1, false, afterComposer.2, false⟩
        else
          let db2 := deleteBubblePass ids afterComposer.1
          if f.contextTxFails then ⟨db2, false, afterComposer.2, false⟩
          else ⟨deleteContextPass ids db2, true, afterComposer.2, true⟩

/-- `<workspace>/../globalStorage/state.vscdb`, the IDE-owned source store. -/
def originalDbPath : String := "globalStorage/state.vscdb"

/-- `.temp/db/state.vscdb.shadow`, the shadow copy. -/
def shadowDbPath : String := ".temp/db/state.vscdb.shadow"

/-- `.temp/db/filtered.vscdb`, the filtered copy. -/
def filteredDbPath : String := ".temp/db/filtered.vscdb"

/-- One invocation environment for `getShadowDbPath`: the module-level
`cachedDbPath`, which files exist, whether the copy to the shadow path
throws, the source store's content, the configured allow-list, the fault
points of the filter pass, and the prior content at the filtered path. -/
structure GEnv where
  cached : Option String
  cachedExists : Bool
  sourceExists : Bool
  copyThrows : Bool
  sourceStore : Store
  allowed : List String
  faults : Faults
  dest0 : Store
deriving Repr

/-- Observable outcome of one `getShadowDbPath` call: the returned path, the
value of `cachedDbPath` afterwards, the store content at the returned path
when this call derived it (`none` on a cache hit or when no store exists
there), and whether the returned store was compacted during this call. -/
structure GResult where
  path : String
  cached' : Option String
  storeAtPath : Option Store
  vacuumApplied : Bool
deriving DecidableEq, Repr

/-- `if (cachedDbPath && fs.existsSync(cachedDbPath))`. -/
def cacheHit (e : GEnv) : Bool :=
  match e.cached with
  | some _ => e.cachedExists
  | none => false

/-- Body of `getShadowDbPath` past the cache check: if the source store
exists, copy it to the shadow path (a throw is caught, returning the source
path with the cache untouched); with a non-empty allow-list run
`createFilteredDatabase` and on success switch to the filtered path, on
reported failure fall back to the shadow path; with an empty allow-list use
the shadow copy as-is. If the source store is absent, return its would-be
path unchanged. -/
def getShadowDbPathCore (e : GEnv) : GResult :=
  if e.sourceExists then
    if e.copyThrows then ⟨originalDbPath, e.cached, none, false⟩
    else
      match e.allowed with
      | [] => ⟨shadowDbPath, some shadowDbPath, some e.sourceStore, false⟩
      | _ :: _ =>
        let res := createFilteredDatabase e.faults e.dest0 e.sourceStore e.allowed
        if res.ok then ⟨filteredDbPath, some filteredDbPath, some res.store, res.vacuumed⟩
        else ⟨shadowDbPath, some shadowDbPath, some e.sourceStore, false⟩
  else ⟨originalDbPath, e.cached, none, false⟩

/-- `getShadowDbPath()`: serve the cached path when it is set and still
exists, otherwise derive. -/
def getShadowDbPath (e : GEnv) : GResult :=
  match e.cached with
  | some p => if e.cachedExists then ⟨p, some p, none, false⟩ else getShadowDbPathCore e
  | none => getShadowDbPathCore e

/-- `resetShadowDb()`: clear the cache and eagerly re-derive. -/
def resetShadowDb (e : GEnv) : GResult :=
  getShadowDbPath { e with cached := none }

lemma memB_iff {x : String} : ∀ {l : List String}, memB x l = true ↔ x ∈ l := by
  intro l
  induction l with
  | nil => simp [memB]
  | cons y t ih => simp [memB, ih]

lemma prefix_comparable :
    ∀ (l p q : List Char), isPrefixChars p l = true → isPrefixChars q l = true →
      isPrefixChars p q = true ∨ isPrefixChars q p = true := by
  intro l
  induction l with
  | nil =>
    intro p q hp _
    cases p with
    | nil => exact Or.inl rfl
    | cons a p' => simp [isPrefixChars] at hp
  | cons c t ih =>
    intro p q hp hq
    cases p with
    | nil => exact Or.inl rfl
    | cons a p' =>
      cases q with
      | nil => exact Or.inr rfl
      | cons b q' =>
        simp [isPrefixChars] at hp hq
        rcases ih p' q' hp.2 hq.2 with h | h
        · exact Or.inl (by simp [isPrefixChars, hp.1, hq.1, h])
        · exact Or.inr (by simp [isPrefixChars, hp.1, hq.1, h])

/-- Two record-family tags that are not prefixes of each other never select
the same key. -/
lemma startsWith_disjoint {p q k : String}
    (hpq : isPrefixChars p.toList q.toList = false)
    (hqp : isPrefixChars q.toList p.toList = false)
    (hp : strStartsWith k p = true) :
    strStartsWith k q = false := by
  cases hq : strStartsWith k q with
  | false => rfl
  | true =>
    rcases prefix_comparable k.toList p.toList q.toList hp hq with h | h
    · rw [hpq] at h; exact absurd h Bool.false_ne_true
    · rw [hqp] at h; exact absurd h Bool.false_ne_true

lemma determineProjectId_of_step1 {allowed : List String} {st : Store}
    {cid p : String} {v : Value}
    (h : step1Project allowed (layoutsFor st cid) = some p) :
    determineProjectId allowed st cid v = some p := by
  unfold determineProjectId
  rw [h]

lemma determineProjectId_of_no_step1 {allowed : List String} {st : Store}
    {cid : String} {v : Value}
    (h : step1Project allowed (layoutsFor st cid) = none) :
    determineProjectId allowed st cid v = fallbackProject allowed st v := by
  unfold determineProjectId
  rw [h]

/-- In a run that returns `true` with a non-empty allowed-conversation set,
no uncatchable fault fired and the destination store is exactly the three
family passes applied in source order (the composer pass skipped when its
guarded bulk delete failed). -/
lemma createFiltered_main {f : Faults} {dest0 st : Store} {allowed : List String}
    (hA : allowed ≠ [])
    (hIds : computeAllowedComposerIds st allowed ≠ [])
    (hOk : (createFilteredDatabase f dest0 st allowed).ok = true) :
    f.copyFails = false ∧ f.bubbleTxFails = false ∧ f.contextTxFails = false ∧
    (createFilteredDatabase f dest0 st allowed).store =
      deleteContextPass (computeAllowedComposerIds st allowed)
        (deleteBubblePass (computeAllowedComposerIds st allowed)
          (if f.composerDeleteFails then st
           else deleteComposerPass (computeAllowedComposerIds st allowed) st)) := by
  cases hc : f.copyFails with
  | true => simp [createFilteredDatabase, hc] at hOk
  | false =>
    cases allowed with
    | nil => exact absurd rfl hA
    | cons a as =>
      cases hI : computeAllowedComposerIds st (a :: as) with
      | nil => exact absurd hI hIds
      | cons i is =>
        cases hb : f.bubbleTxFails with
        | true => simp [createFilteredDatabase, hc, hI, hb] at hOk
        | false =>
          cases hx : f.contextTxFails with
          | true => simp [createFilteredDatabase, hc, hI, hb, hx] at hOk
          | false =>
            refine ⟨rfl, rfl, rfl, ?_⟩
            cases hcd : f.composerDeleteFails <;>
              simp [createFilteredDatabase, hc, hI, hb, hx, hcd]

/-- A run of `createFilteredDatabase` with no injected faults. -/
def noFaults : Faults := {}

/-- Store exercising referential cleanup: conversation `c1` is attributed to
`Foo` by an exact `projectLayouts` match; `c2` has no signal; `c9` owns an
orphaned bubble with no `composerData:` row; one `codeBlockDiff:` row is
attributed to the excluded `c2`. -/
def c1Store : Store := [
  ⟨"messageRequestContext:c1:x", { isObj := true,
                                   projectLayouts := some [some "Foo"] }⟩,
  ⟨"composerData:c1", { isObj := true }⟩,
  ⟨"composerData:c2", { isObj := true }⟩,
  ⟨"bubbleId:c2:b1", { isObj := true }⟩,
  ⟨"messageRequestContext:c2:y", { isObj := true }⟩,
  ⟨"bubbleId:c9:b9", { isObj := true }⟩,
  ⟨"codeBlockDiff:c2:d1", { isObj := false }⟩ ]

/-- C1: whenever the filter pass returns `true` on a non-empty allow-list
with a non-empty allowed-conversation set, every surviving `bubbleId:` or
`messageRequestContext:` record carries an allowed conversation id in its
second key segment — equivalently, no such record of an excluded
conversation remains, orphaned or not — while every `codeBlockDiff:` record
of the input store survives unchanged. -/
theorem filter_referential_cleanup
    (f : Faults) (dest0 st : Store) (allowed : List String)
    (hA : allowed ≠ [])
    (hIds : computeAllowedComposerIds st allowed ≠ [])
    (hOk : (createFilteredDatabase f dest0 st allowed).ok = true) :
    (∀ r ∈ (createFilteredDatabase f dest0 st allowed).store,
        ∀ cid, keyPart r.key 1 = some cid →
          (strStartsWith r.key "bubbleId:" = true ∨
           strStartsWith r.key "messageRequestContext:" = true) →
          cid ∈ computeAllowedComposerIds st allowed) ∧
    (∀ r ∈ st, strStartsWith r.key "codeBlockDiff:" = true →
        r ∈ (createFilteredDatabase f dest0 st allowed).store) := by
  obtain ⟨hc, hb, hx, hstore⟩ := createFiltered_main hA hIds hOk
  constructor
  · intro r hr cid hcid hfam
    rw [hstore] at hr
    have h1 := List.mem_filter.mp hr
    have hexcl : secondSegExcluded (computeAllowedComposerIds st allowed) r.key = false := by
      rcases hfam with hbp | hxp
      · have h2 := List.mem_filter.mp h1.1
        have h3 := h2.2
        simpa [hbp] using h3
      · have h3 := h1.2
        simpa [hxp] using h3
    have h4 : memB cid (computeAllowedComposerIds st allowed) = true := by
      unfold secondSegExcluded at hexcl
      rw [hcid] at hexcl
      simpa using hexcl
    exact memB_iff.mp h4
  · intro r hr hcbd
    have hnc : strStartsWith r.key "composerData:" = false :=
      startsWith_disjoint (by decide) (by decide) hcbd
    have hnb : strStartsWith r.key "bubbleId:" = false :=
      startsWith_disjoint (by decide) (by decide) hcbd
    have hnx : strStartsWith r.key "messageRequestContext:" = false :=
      startsWith_disjoint (by decide) (by decide) hcbd
    rw [hstore]
    apply List.mem_filter.mpr
    refine ⟨?_, by simp [hnx]⟩
    apply List.mem_filter.mpr
    refine ⟨?_, by simp [hnb]⟩
    cases hcd : f.composerDeleteFails with
    | true => simpa [hcd] using hr
    | false =>
      simp only [hcd, if_neg Bool.false_ne_true]
      exact List.mem_filter.mpr ⟨hr, by simp [hnc]⟩

theorem filter_referential_cleanup_witness :
    (∀ r ∈ (createFilteredDatabase noFaults [] c1Store ["Foo"]).store,
        ∀ cid, keyPart r.key 1 = some cid →
          (strStartsWith r.key "bubbleId:" = true ∨
           strStartsWith r.key "messageRequestContext:" = true) →
          cid ∈ computeAllowedComposerIds c1Store ["Foo"]) ∧
    (∀ r ∈ c1Store, strStartsWith r.key "codeBlockDiff:" = true →
        r ∈ (createFilteredDatabase noFaults [] c1Store ["Foo"]).store) :=
  filter_referential_cleanup noFaults [] c1Store ["Foo"]
    (by decide) (by decide) (by decide)

/-- Store on which the attribution pass matches nothing: one conversation
with no signal, its bubble and context rows, and an unrelated row. -/
def c2Store : Store := [
  ⟨"composerData:c2", { isObj := true }⟩,
  ⟨"bubbleId:c2:b1", { isObj := true }⟩,
  ⟨"messageRequestContext:c2:y", { isObj := true }⟩,
  ⟨"someOtherKey", { isObj := false }⟩ ]

/-- C2: when the allow-list is non-empty but the attribution pass produced an
empty allowed-conversation set, the filter pass runs the bulk delete over all
three conversation-bearing families: nothing of those families survives, and
the pass still reports success. -/
theorem filter_empty_match_purges_families
    (f : Faults) (dest0 st : Store) (allowed : List String)
    (hA : allowed ≠ []) (hIds : computeAllowedComposerIds st allowed = [])
    (hCopy : f.copyFails = false) :
    (createFilteredDatabase f dest0 st allowed).ok = true ∧
    (createFilteredDatabase f dest0 st allowed).store = deleteAllPass st ∧
    ∀ r ∈ (createFilteredDatabase f dest0 st allowed).store,
      conversationFamilies r.key = false := by
  cases allowed with
  | nil => exact absurd rfl hA
  | cons a as =>
    have hres : createFilteredDatabase f dest0 st (a :: as) =
        ⟨deleteAllPass st, true, 0, true⟩ := by
      simp [createFilteredDatabase, hCopy, hIds]
    refine ⟨by rw [hres], by rw [hres], ?_⟩
    intro r hr
    rw [hres] at hr
    have h := (List.mem_filter.mp hr).2
    simpa using h

theorem filter_empty_match_purges_families_witness :
    (createFilteredDatabase noFaults [] c2Store ["Foo"]).ok = true ∧
    (createFilteredDatabase noFaults [] c2Store ["Foo"]).store = deleteAllPass c2Store ∧
    ∀ r ∈ (createFilteredDatabase noFaults [] c2Store ["Foo"]).store,
      conversationFamilies r.key = false :=
  filter_empty_match_purges_families noFaults [] c2Store ["Foo"]
    (by decide) (by decide) (by decide)

/-- Store for the cascade-order scenario: conversation `c1` declares the
project root `Foo` via `projectLayouts`. -/
def c3Store : Store := [
  ⟨"messageRequestContext:c1:x", { isObj := true,
                                   projectLayouts := some [some "Foo"] }⟩ ]

/-- Composer value whose `newlyCreatedFiles` path hits the different allowed
project `Bar` through the file-path fallback. -/
def c3Comp : Value := { isObj := true,
                        newlyCreatedFiles := some [some "/x/Bar/main.ts"] }

/-- C3: the cascade consults `projectLayouts` first: whenever step 1 yields a
match, that match is the attribution (whatever the file-path signals would
say), and the file-path fallback result is used exactly when step 1 yields
nothing. -/
theorem attribution_layouts_precede_files
    (st : Store) (allowed : List String) (cid : String) (v : Value) :
    (∀ p, step1Project allowed (layoutsFor st cid) = some p →
        determineProjectId allowed st cid v = some p) ∧
    (step1Project allowed (layoutsFor st cid) = none →
        determineProjectId allowed st cid v = fallbackProject allowed st v) :=
  ⟨fun _ h => determineProjectId_of_step1 h,
   fun h => determineProjectId_of_no_step1 h⟩

theorem attribution_layouts_precede_files_witness :
    step1Project ["Bar", "Foo"] (layoutsFor c3Store "c1") = some "Foo" ∧
    fallbackProject ["Bar", "Foo"] c3Store c3Comp = some "Bar" ∧
    determineProjectId ["Bar", "Foo"] c3Store "c1" c3Comp = some "Foo" :=
  ⟨by decide, by decide,
    (attribution_layouts_precede_files c3Store ["Bar", "Foo"] "c1" c3Comp).1
      "Foo" (by decide)⟩

/-- Store whose only conversation `c1` has a `projectLayouts` root path that
contains the allowed name `Foo` strictly as a substring, and no other
signal. -/
def c4Store : Store := [
  ⟨"messageRequestContext:c1:x", { isObj := true,
                                   projectLayouts := some [some "/home/u/Foo"] }⟩,
  ⟨"composerData:c1", { isObj := true }⟩ ]

/-- Composer value of `c4Store` with no file-path signal. -/
def c4Comp : Value := { isObj := true }

/-- C4 counterexample: the allowed name "Foo" occurs case-sensitively as a
substring of the conversation's `projectLayouts` root path "/home/u/Foo",
yet step 1 does not attribute the conversation (attribution is `none` and
the conversation is not in the allowed set), because step 1 tests exact
array membership, not substring containment. -/
theorem step1_substring_counterexample :
    strIncludes "/home/u/Foo" "Foo" = true ∧
    layoutsFor c4Store "c1" = ["/home/u/Foo"] ∧
    determineProjectId ["Foo"] c4Store "c1" c4Comp = none ∧
    computeAllowedComposerIds c4Store ["Foo"] = [] := by decide

/-- C4 amended: step 1 matches a `projectLayouts` root path only by exact,
case-sensitive whole-string equality with an allow-list entry
(`allowedProjects.includes(rootPath)`); when no root path is exactly equal to
an allowed name — substring occurrences included — step 1 contributes nothing
and attribution falls through to the file-path fallbacks. -/
theorem step1_exact_membership
    (st : Store) (allowed : List String) (cid : String) (v : Value)
    (h : ∀ r ∈ layoutsFor st cid, r ∉ allowed) :
    determineProjectId allowed st cid v = fallbackProject allowed st v := by
  apply determineProjectId_of_no_step1
  unfold step1Project
  apply List.find?_eq_none.mpr
  intro x hx
  rw [memB_iff]
  exact h x hx

theorem step1_exact_membership_witness :
    (∀ r ∈ layoutsFor c4Store "c1", r ∉ (["Foo"] : List String)) ∧
    determineProjectId ["Foo"] c4Store "c1" c4Comp =
      fallbackProject ["Foo"] c4Store c4Comp :=
  ⟨by decide, step1_exact_membership c4Store ["Foo"] "c1" c4Comp (by decide)⟩

/-- Faults injecting a failure into the `bubbleId:` delete transaction. -/
def c5Faults : Faults := { bubbleTxFails := true }

/-- Store with one conversation attributed to `Foo` and one excluded bubble,
so the run reaches the `bubbleId:` transaction. -/
def c5Store : Store := [
  ⟨"messageRequestContext:c1:x", { isObj := true,
                                   projectLayouts := some [some "Foo"] }⟩,
  ⟨"composerData:c1", { isObj := true }⟩,
  ⟨"bubbleId:c2:b1", { isObj := true }⟩ ]

/-- C5 counterexample: a failure of the `bubbleId:` delete transaction is not
downgraded to a warning — it escapes to the top-level catch, the pass reports
total failure (returns `false`) and logs no delete warning — refuting the
claim that every family-level delete failure merely skips that family. -/
theorem family_failure_counterexample :
    computeAllowedComposerIds c5Store ["Foo"] = ["c1"] ∧
    (createFilteredDatabase c5Faults [] c5Store ["Foo"]).ok = false ∧
    (createFilteredDatabase c5Faults [] c5Store ["Foo"]).warns = 0 := by decide

/-- C5 amended: only the `composerData` bulk delete is individually guarded:
its failure is logged as a warning and that family's deletion alone is
skipped, with the pass continuing through the other two families and still
returning `true`; a failure of the `bubbleId:` or `messageRequestContext:`
delete transaction instead aborts the pass, which reports total failure. -/
theorem composer_delete_failure_skipped
    (dest0 st : Store) (allowed : List String) (f : Faults)
    (hc : f.copyFails = false) (hcd : f.composerDeleteFails = true)
    (hb : f.bubbleTxFails = false) (hx : f.contextTxFails = false)
    (hA : allowed ≠ []) (hIds : computeAllowedComposerIds st allowed ≠ []) :
    (createFilteredDatabase f dest0 st allowed).ok = true ∧
    (createFilteredDatabase f dest0 st allowed).warns = 1 ∧
    (createFilteredDatabase f dest0 st allowed).store =
      deleteContextPass (computeAllowedComposerIds st allowed)
        (deleteBubblePass (computeAllowedComposerIds st allowed) st) := by
  cases allowed with
  | nil => exact absurd rfl hA
  | cons a as =>
    cases hI : computeAllowedComposerIds st (a :: as) with
    | nil => exact absurd hI hIds
    | cons i is =>
      refine ⟨?_, ?_, ?_⟩ <;> simp [createFilteredDatabase, hc, hcd, hb, hx, hI]

/-- Faults injecting a failure into the `composerData` bulk delete only. -/
def c5WarnFaults : Faults := { composerDeleteFails := true }

theorem composer_delete_failure_skipped_witness :
    (createFilteredDatabase c5WarnFaults [] c5Store ["Foo"]).ok = true ∧
    (createFilteredDatabase c5WarnFaults [] c5Store ["Foo"]).warns = 1 ∧
    (createFilteredDatabase c5WarnFaults [] c5Store ["Foo"]).store =
      deleteContextPass (computeAllowedComposerIds c5Store ["Foo"])
        (deleteBubblePass (computeAllowedComposerIds c5Store ["Foo"]) c5Store) :=
  composer_delete_failure_skipped [] c5Store ["Foo"] c5WarnFaults
    rfl rfl rfl rfl (by decide) (by decide)

/-- Scenario B composer value: no `projectLayouts`, one conversation header
pointing at bubble `b1`. -/
def scenBComp : Value := { isObj := true,
                           fullConversationHeadersOnly := some [HeaderE.obj (some "b1")] }

/-- Scenario B store: conversation `c1` with a single bubble whose
`relevantFiles` holds a macOS-style absolute path into project `Foo`. -/
def scenBStore : Store := [
  ⟨"composerData:c1", scenBComp⟩,
  ⟨"bubbleId:c1:b1", { isObj := true,
                       relevantFiles := some [some "/Users/alice/Foo/src/main.ts"] }⟩ ]

/-- C6: Scenario B end to end: the bubble path `/Users/alice/Foo/src/main.ts`
normalizes to `Foo\src\main.ts` (home segment stripped, slashes to
backslashes), which contains "Foo", so with allow-list `["Foo"]` and no
`projectLayouts` signal the conversation is attributed to `Foo` through the
bubble fallback and the filter pass retains the whole conversation. -/
theorem scenario_b_normalization_and_retention :
    normalizePath "/Users/alice/Foo/src/main.ts" = "Foo\\src\\main.ts" ∧
    strIncludes (normalizePath "/Users/alice/Foo/src/main.ts") "Foo" = true ∧
    layoutsFor scenBStore "c1" = [] ∧
    determineProjectId ["Foo"] scenBStore "c1" scenBComp = some "Foo" ∧
    computeAllowedComposerIds scenBStore ["Foo"] = ["c1"] ∧
    (createFilteredDatabase noFaults [] scenBStore ["Foo"]).ok = true ∧
    (createFilteredDatabase noFaults [] scenBStore ["Foo"]).store = scenBStore := by
  decide

/-- On a cache miss (`cachedDbPath` unset, or the cached file gone), the call
runs the derivation body. -/
lemma getShadowDbPath_of_miss {e : GEnv} (hMiss : cacheHit e = false) :
    getShadowDbPath e = getShadowDbPathCore e := by
  unfold getShadowDbPath
  cases hcache : e.cached with
  | none => rfl
  | some p =>
    have hce : e.cachedExists = false := by
      unfold cacheHit at hMiss
      rw [hcache] at hMiss
      exact hMiss
    simp [hce]

/-- C7: whenever an invocation actually runs the filter pass (cache miss,
source present, copy succeeded, non-empty allow-list) and that pass reports
failure, `getShadowDbPath` caches and returns the unfiltered shadow path —
the store stays available rather than being withheld. -/
theorem filter_failure_falls_back_to_shadow
    (e : GEnv) (hMiss : cacheHit e = false)
    (hSrc : e.sourceExists = true) (hCopy : e.copyThrows = false)
    (hA : e.allowed ≠ [])
    (hFail : (createFilteredDatabase e.faults e.dest0 e.sourceStore e.allowed).ok
      = false) :
    (getShadowDbPath e).path = shadowDbPath ∧
    (getShadowDbPath e).cached' = some shadowDbPath ∧
    (getShadowDbPath e).storeAtPath = some e.sourceStore := by
  rw [getShadowDbPath_of_miss hMiss]
  cases hcA : e.allowed with
  | nil => exact absurd hcA hA
  | cons a as =>
    rw [hcA] at hFail
    simp [getShadowDbPathCore, hSrc, hCopy, hcA, hFail]

/-- Environment whose filter pass fails (injected copy failure inside the
pass), with a present source store and a non-empty allow-list. -/
def c7Env : GEnv := { cached := none, cachedExists := false,
                      sourceExists := true, copyThrows := false,
                      sourceStore := [⟨"composerData:c1", { isObj := true }⟩],
                      allowed := ["Foo"], faults := { copyFails := true },
                      dest0 := [] }

theorem filter_failure_falls_back_to_shadow_witness :
    (getShadowDbPath c7Env).path = shadowDbPath ∧
    (getShadowDbPath c7Env).cached' = some shadowDbPath ∧
    (getShadowDbPath c7Env).storeAtPath = some c7Env.sourceStore :=
  filter_failure_falls_back_to_shadow c7Env (by decide) (by decide) (by decide)
    (by decide) (by decide)

/-- Environment with an empty allow-list, a cache miss and a present source
store. -/
def c8Env : GEnv := { cached := none, cachedExists := false,
                      sourceExists := true, copyThrows := false,
                      sourceStore := [⟨"composerData:c1", { isObj := true }⟩],
                      allowed := [], faults := {}, dest0 := [] }

/-- C8 counterexample: with an empty allow-list the returned path is the
shadow path and the store content is the untouched source copy, but the
compaction step is NOT applied to the returned store — `getShadowDbPath`
never invokes the filter/compactor (where `VACUUM` lives) when the
allow-list is empty, refuting the claim's "compaction still applied". -/
theorem empty_allowlist_no_vacuum_counterexample :
    (getShadowDbPath c8Env).path = shadowDbPath ∧
    (getShadowDbPath c8Env).storeAtPath = some c8Env.sourceStore ∧
    ¬ ((getShadowDbPath c8Env).vacuumApplied = true) := by decide

/-- C8 amended: with an empty allow-list the active path is the shadow path
and the shadow copy keeps the source store's records unchanged (no
deletions), but no compaction is applied to that store: the filter/compactor
— the only place `VACUUM` runs — is not invoked at all for an empty
allow-list. -/
theorem empty_allowlist_passthrough
    (e : GEnv) (hMiss : cacheHit e = false) (hSrc : e.sourceExists = true)
    (hCopy : e.copyThrows = false) (hA : e.allowed = []) :
    (getShadowDbPath e).path = shadowDbPath ∧
    (getShadowDbPath e).cached' = some shadowDbPath ∧
    (getShadowDbPath e).storeAtPath = some e.sourceStore ∧
    (getShadowDbPath e).vacuumApplied = false := by
  rw [getShadowDbPath_of_miss hMiss]
  simp [getShadowDbPathCore, hSrc, hCopy, hA]

theorem empty_allowlist_passthrough_witness :
    (getShadowDbPath c8Env).path = shadowDbPath ∧
    (getShadowDbPath c8Env).cached' = some shadowDbPath ∧
    (getShadowDbPath c8Env).storeAtPath = some c8Env.sourceStore ∧
    (getShadowDbPath c8Env).vacuumApplied = false :=
  empty_allowlist_passthrough c8Env (by decide) (by decide) (by decide) (by decide)

/-- Environment with a warm, still-existing cached path but an absent source
store. -/
def c9Env : GEnv := { cached := some shadowDbPath, cachedExists := true,
                      sourceExists := false, copyThrows := false,
                      sourceStore := [], allowed := [], faults := {},
                      dest0 := [] }

/-- C9 counterexample: an invocation with the source store absent but a warm
cache returns the cached path, not the computed source path — the claim's
"every invocation" fails; only cache-missing invocations return the source
path. -/
theorem source_absent_cached_counterexample :
    c9Env.sourceExists = false ∧
    (getShadowDbPath c9Env).path = shadowDbPath ∧
    ¬ ((getShadowDbPath c9Env).path = originalDbPath) := by decide

/-- C9 amended: every invocation that misses the path cache (no cached path,
or the cached file no longer exists) and finds the source store file absent
returns the computed (non-existent) source path unchanged, leaves the cache
untouched, and does not throw (the absent-source branch performs no fallible
operation). -/
theorem source_absent_returns_source_path
    (e : GEnv) (hMiss : cacheHit e = false) (hSrc : e.sourceExists = false) :
    (getShadowDbPath e).path = originalDbPath ∧
    (getShadowDbPath e).cached' = e.cached := by
  rw [getShadowDbPath_of_miss hMiss]
  simp [getShadowDbPathCore, hSrc]

/-- Cold-start environment with an absent source store. -/
def c9MissEnv : GEnv := { cached := none, cachedExists := false,
                          sourceExists := false, copyThrows := false,
                          sourceStore := [], allowed := [], faults := {},
                          dest0 := [] }

theorem source_absent_returns_source_path_witness :
    (getShadowDbPath c9MissEnv).path = originalDbPath ∧
    (getShadowDbPath c9MissEnv).cached' = c9MissEnv.cached :=
  source_absent_returns_source_path c9MissEnv (by decide) (by decide)

/-- Case analysis of the derivation body used for the cache invariant. -/
lemma core_cached_cases (e : GEnv) :
    (getShadowDbPathCore e).cached' = e.cached ∨
    (getShadowDbPathCore e).cached' = some shadowDbPath ∨
    (getShadowDbPathCore e).cached' = some filteredDbPath := by
  unfold getShadowDbPathCore
  cases hs : e.sourceExists with
  | false => simp
  | true =>
    cases hcp : e.copyThrows with
    | true => simp
    | false =>
      cases hA : e.allowed with
      | nil => simp
      | cons a as =>
        cases hok : (createFilteredDatabase e.faults e.dest0 e.sourceStore
            (a :: as)).ok with
        | true => simp [hok]
        | false => simp [hok]

/-- C10: `cachedDbPath` is only ever written with a successfully derived
shadow or filtered path (or left as it was); on the failure paths — source
file absent, or the copy throwing — the call returns the original source
path without touching the cache, so a later call cannot be served the failed
result from cache and re-attempts the whole derivation. -/
theorem cache_only_holds_derived_paths (e : GEnv) :
    ((getShadowDbPath e).cached' = e.cached ∨
     (getShadowDbPath e).cached' = some shadowDbPath ∨
     (getShadowDbPath e).cached' = some filteredDbPath) ∧
    (cacheHit e = false → (e.sourceExists = false ∨ e.copyThrows = true) →
      (getShadowDbPath e).path = originalDbPath ∧
      (getShadowDbPath e).cached' = e.cached) := by
  constructor
  · cases hhit : cacheHit e with
    | true =>
      left
      unfold getShadowDbPath
      unfold cacheHit at hhit
      cases hcache : e.cached with
      | none => rw [hcache] at hhit; exact absurd hhit Bool.false_ne_true
      | some p =>
        rw [hcache] at hhit
        simp only [] at hhit
        simp [hhit, hcache]
    | false =>
      rw [getShadowDbPath_of_miss hhit]
      exact core_cached_cases e
  · intro hMiss hfail
    rw [getShadowDbPath_of_miss hMiss]
    unfold getShadowDbPathCore
    rcases hfail with h | h
    · simp [h]
    · simp [h]

/-- Environment whose copy of the source store to the shadow path throws. -/
def c10Env : GEnv := { cached := none, cachedExists := false,
                       sourceExists := true, copyThrows := true,
                       sourceStore := [⟨"composerData:c1", { isObj := true }⟩],
                       allowed := ["Foo"], faults := {}, dest0 := [] }

theorem cache_only_holds_derived_paths_witness :
    (getShadowDbPath c10Env).path = originalDbPath ∧
    (getShadowDbPath c10Env).cached' = c10Env.cached := by
  have h := (cache_only_holds_derived_paths c10Env).2 (by decide)
    (Or.inr (by decide))
  exact h

end CursorFilter
